import Mathlib

/-
Shallow embedding of the fraud-detection pipeline of the Major-AI
ml-service (files src/ml-service/fraud/feature_extractor.py,
src/ml-service/fraud/predict.py and src/ml-service/fraud/train.py).

Python floats are modelled as rationals (ℚ).  External library functions
whose numeric results no verified logic consumes (np.log1p, pandas std,
the md5-based ip hash, and the epoch-seconds → calendar decomposition of
datetime.fromtimestamp) are passed in as explicit parameters bundled in
the structure Ext, so every theorem below holds for all choices of these
externals.  The single wall-clock reading datetime.now() is the parameter
now (epoch seconds).
-/

namespace Fraud

/-- Calendar decomposition of a timestamp, as produced by
datetime.fromtimestamp: hour (0..23), weekday (Mon=0..Sun=6),
day of month, month. -/
structure DT where
  hour : ℕ
  weekday : ℕ
  day : ℕ
  month : ℕ
deriving DecidableEq, Repr

/-- External library functions used by the Python code: np.log1p,
pandas Series.std, the md5-derived integer of an ip string
(int(md5(ip).hexdigest()[:8], 16)), and timestamp → calendar fields. -/
structure Ext where
  log1p : ℚ → ℚ
  std : List ℚ → ℚ
  md5int : String → ℕ
  toDT : ℚ → DT

/-- A transaction dictionary.  Fields the Python code reads with
transaction.get(k, default) are carried with that default applied at the
use site; fields read with a bare transaction.get(k) are Options. -/
structure Txn where
  id : Option String := none
  user_id : Option String := none
  amount : Option ℚ := none
  is_first : Bool := false
  daily_count : ℚ := 0
  payment_method : String := ""
  timestamp : Option ℚ := none
  device_type : Option String := none
  browser : Option String := none
  os : Option String := none
  ip_address : String := ""
  session_duration : ℚ := 0
deriving DecidableEq, Repr

/-- One record of a user's transaction history (rows of the pandas
DataFrame built in _extract_user_behavior_features). -/
structure HistRec where
  amount : ℚ
  timestamp : ℚ
  status : String
deriving DecidableEq, Repr

/-- A Python value stored in the features dictionary.  npnum is a numpy
scalar (it has .item()); num is a plain Python int/float; dict and list
are opaque container tags (their contents are never consumed by the
code under verification, only their isinstance class). -/
inductive PyVal where
  | num (q : ℚ)
  | npnum (q : ℚ)
  | str (s : String)
  | bool (b : Bool)
  | dict
  | list
deriving DecidableEq, Repr

/-- The features dictionary: insertion-ordered keyed pairs with unique
keys, looked up by first match. -/
abbrev Features := List (String × PyVal)

/-- Dictionary lookup, features.get(k) / features[k]. -/
def fget (fs : Features) (k : String) : Option PyVal :=
  (fs.find? (fun p => p.1 == k)).map (fun p => p.2)

/-- Numeric reading of a Python value in an arithmetic comparison;
True/False compare as 1/0.  A non-numeric value in a numeric comparison
would raise TypeError in Python; no consumed key ever holds one, and the
model returns the surrounding default there. -/
def pyNum (v : PyVal) (d : ℚ) : ℚ :=
  match v with
  | .num q => q
  | .npnum q => q
  | .bool b => if b then 1 else 0
  | _ => d

/-- features.get(k, d) read as a number. -/
def fgetNum (fs : Features) (k : String) (d : ℚ) : ℚ :=
  match fget fs k with
  | some v => pyNum v d
  | none => d

/-- Python value == 1 (True == 1 holds in Python). -/
def pyEqOne (v : PyVal) : Bool :=
  match v with
  | .num q => q == 1
  | .npnum q => q == 1
  | .bool b => b
  | _ => false

/-- features.get(k, 0) == 1. -/
def fgetEqOne (fs : Features) (k : String) : Bool :=
  match fget fs k with
  | some v => pyEqOne v
  | none => false

/-- Python truthiness of a stored value.  The opaque container tags are
modelled as truthy; no consumed key holds one in a boolean position. -/
def pyTruthy (v : PyVal) : Bool :=
  match v with
  | .num q => q != 0
  | .npnum q => q != 0
  | .str s => s != ""
  | .bool b => b
  | .dict => true
  | .list => true

/-- Truthiness of features.get(k, False). -/
def truthyOpt (v : Option PyVal) : Bool :=
  match v with
  | some w => pyTruthy w
  | none => false

/-- FraudFeatureExtractor._extract_transaction_features. -/
def extractTransactionFeatures (ext : Ext) (t : Txn) : Features :=
  [("transaction_amount", .num (t.amount.getD 0)),
   ("amount_log", .npnum (ext.log1p (t.amount.getD 0))),
   ("is_first_transaction", .bool t.is_first),
   ("transaction_count_today", .num t.daily_count),
   ("payment_method_credit_card", .num (if t.payment_method = "credit_card" then 1 else 0)),
   ("payment_method_digital", .num (if t.payment_method = "khalti" ∨ t.payment_method = "esewa" then 1 else 0))]

/-- FraudFeatureExtractor._extract_user_behavior_features.  Only invoked
on nonempty history.  avg_time_between_transactions reflects the mean of
the pandas diff column (telescoping to (last-first)/(n-1)), divided by
1e9 because pd.to_datetime reads the numeric epoch values as nanoseconds;
its value is consumed by nothing downstream. -/
def extractUserBehaviorFeatures (ext : Ext) (now : ℚ) (t : Txn) (history : List HistRec) : Features :=
  match history with
  | [] => []
  | h :: rest =>
    let hist := h :: rest
    let n : ℚ := (hist.length : ℚ)
    let amounts := hist.map (fun r => r.amount)
    let avg : ℚ := amounts.sum / n
    let devRatio : PyVal :=
      if avg > 0 then .npnum ((t.amount.getD 0) / avg) else .num 10
    let avgGap : ℚ :=
      if hist.length > 1 then ((hist.getLastD h).timestamp - h.timestamp) / (n - 1) / 1000000000
      else 0
    let failures := hist.filter (fun r => r.status == "failed")
    let lastHour := hist.filter (fun r => r.timestamp > now - 3600)
    let lastDay := hist.filter (fun r => r.timestamp > now - 86400)
    [("avg_transaction_amount", .npnum avg),
     ("std_transaction_amount", .npnum (ext.std amounts)),
     ("total_transaction_count", .num n),
     ("amount_deviation_ratio", devRatio),
     ("avg_time_between_transactions", .npnum avgGap),
     ("previous_failure_rate", .npnum ((failures.length : ℚ) / n)),
     ("transactions_last_hour", .num (lastHour.length : ℚ)),
     ("transactions_last_24h", .num (lastDay.length : ℚ)),
     ("hourly_velocity", .num ((lastHour.length : ℚ) / 1)),
     ("daily_velocity", .num ((lastDay.length : ℚ) / 24))]

/-- FraudFeatureExtractor._extract_temporal_features. -/
def extractTemporalFeatures (ext : Ext) (now : ℚ) (t : Txn) : Features :=
  let dt := ext.toDT (t.timestamp.getD now)
  [("hour_of_day", .num (dt.hour : ℚ)),
   ("day_of_week", .num (dt.weekday : ℚ)),
   ("day_of_month", .num (dt.day : ℚ)),
   ("is_weekend", .num (if dt.weekday ≥ 5 then 1 else 0)),
   ("is_night_hours", .num (if dt.hour < 6 then 1 else 0)),
   ("is_business_hours", .num (if 9 ≤ dt.hour ∧ dt.hour < 17 then 1 else 0)),
   ("month", .num (dt.month : ℚ)),
   ("is_holiday_season", .num (if dt.month = 11 ∨ dt.month = 12 then 1 else 0))]

/-- The first two dot-separated groups of an ip, '.'.join(ip.split('.')[:2]). -/
def ipFirstTwo (ip : String) : String :=
  String.intercalate "." ((ip.splitOn ".").take 2)

/-- FraudFeatureExtractor._extract_technical_features. -/
def extractTechnicalFeatures (ext : Ext) (t : Txn) : Features :=
  [("device_type", .str (t.device_type.getD "unknown")),
   ("browser", .str (t.browser.getD "unknown")),
   ("os", .str (t.os.getD "unknown"))] ++
  (if t.ip_address ≠ "" then
    [("ip_prefix", .str (ipFirstTwo t.ip_address)),
     ("ip_hash", .num ((ext.md5int t.ip_address % 10000 : ℕ) : ℚ))]
   else []) ++
  [("session_duration", .num t.session_duration),
   ("short_session", .num (if t.session_duration < 60 then 1 else 0))]

/-- Trigger of _calculate_derived_features: amount deviation ratio > 3. -/
def flagHighDeviation (fs : Features) : Bool :=
  fgetNum fs "amount_deviation_ratio" 1 > 3

/-- Trigger of _calculate_derived_features: hourly velocity > 5. -/
def flagHighVelocity (fs : Features) : Bool :=
  fgetNum fs "hourly_velocity" 0 > 5

/-- Trigger of _calculate_derived_features: night-hours transaction. -/
def flagNight (fs : Features) : Bool :=
  fgetEqOne fs "is_night_hours"

/-- Trigger of _calculate_derived_features: short session. -/
def flagShort (fs : Features) : Bool :=
  fgetEqOne fs "short_session"

/-- Trigger of _calculate_derived_features: failure rate > 0.3. -/
def flagFailures (fs : Features) : Bool :=
  fgetNum fs "previous_failure_rate" 0 > 0.3

/-- Trigger of _calculate_derived_features: first transaction with
amount > 100. -/
def flagNewUser (fs : Features) : Bool :=
  truthyOpt (fget fs "is_first_transaction") && fgetNum fs "transaction_amount" 0 > 100

/-- The weighted sum accumulated by _calculate_derived_features before
the cap. -/
def derivedRiskSum (fs : Features) : ℚ :=
  (if flagHighDeviation fs then 30 else 0) + (if flagHighVelocity fs then 25 else 0) +
  (if flagNight fs then 15 else 0) + (if flagShort fs then 20 else 0) +
  (if flagFailures fs then 25 else 0) + (if flagNewUser fs then 35 else 0)

/-- FraudFeatureExtractor._calculate_derived_features. -/
def calcDerivedFeatures (fs : Features) : Features :=
  [("high_amount_deviation", .num (if flagHighDeviation fs then 1 else 0)),
   ("high_hourly_velocity", .num (if flagHighVelocity fs then 1 else 0)),
   ("night_transaction", .num (if flagNight fs then 1 else 0)),
   ("short_session_flag", .num (if flagShort fs then 1 else 0)),
   ("high_failure_history", .num (if flagFailures fs then 1 else 0)),
   ("new_user_high_amount", .num (if flagNewUser fs then 1 else 0)),
   ("composite_risk_score", .num (min (derivedRiskSum fs) 100))]

/-- The features dictionary accumulated by extract_features before the
derived features: transaction features, then (only for truthy i.e.
nonempty history) user behavior features, then temporal, then technical
features. -/
def baseFeatures (ext : Ext) (now : ℚ) (t : Txn) (history : List HistRec) : Features :=
  extractTransactionFeatures ext t ++
  (match history with
   | [] => []
   | _ => extractUserBehaviorFeatures ext now t history) ++
  extractTemporalFeatures ext now t ++
  extractTechnicalFeatures ext t

/-- FraudFeatureExtractor.extract_features: the accumulated base
features, updated with the derived features computed from them (all key
groups are disjoint, so dict update is append). -/
def extractFeatures (ext : Ext) (now : ℚ) (t : Txn) (history : List HistRec) : Features :=
  let base := baseFeatures ext now t history
  base ++ calcDerivedFeatures base

/-- An explanation dictionary.  The two producers (rule-based prediction
and explain_prediction) populate different subsets of keys; absent keys
are none / [].  The human-readable factor strings carry the Python
templates with the interpolated numbers elided (they are presentation
only and no logic consumes them). -/
structure Explanation where
  method : Option String := none
  factors : List String := []
  contributions : List ℚ := []
  risk_factors : List String := []
  risk_score : Option ℚ := none
  rules_applied : Option ℕ := none
  confidence : ℚ := 0
  summary : Option String := none
deriving DecidableEq, Repr

/-- Rule 1 of _rule_based_prediction: amount deviation. -/
def ruleAmountDev (fs : Features) : ℚ × List String :=
  let dev := fgetNum fs "amount_deviation_ratio" 1
  if dev > 5 then (40, ["EXTREME_AMOUNT_DEVIATION"])
  else if dev > 3 then (25, ["HIGH_AMOUNT_DEVIATION"])
  else (0, [])

/-- Rule 2 of _rule_based_prediction: transaction velocity. -/
def ruleVelocity (fs : Features) : ℚ × List String :=
  let vel := fgetNum fs "hourly_velocity" 0
  if vel > 10 then (35, ["EXTREME_TRANSACTION_VELOCITY"])
  else if vel > 5 then (20, ["HIGH_TRANSACTION_VELOCITY"])
  else (0, [])

/-- Rule 3 of _rule_based_prediction: night hours. -/
def ruleNight (fs : Features) : ℚ × List String :=
  if fgetEqOne fs "is_night_hours" then (15, ["NIGHT_TRANSACTION"]) else (0, [])

/-- Rule 4 of _rule_based_prediction: short session. -/
def ruleShortSession (fs : Features) : ℚ × List String :=
  if fgetEqOne fs "short_session" then (20, ["SHORT_SESSION"]) else (0, [])

/-- Rule 5 of _rule_based_prediction: new user with high amount;
the rule adds 30. -/
def ruleNewUser (fs : Features) : ℚ × List String :=
  if truthyOpt (fget fs "is_first_transaction") && fgetNum fs "transaction_amount" 0 > 100
  then (30, ["NEW_USER_HIGH_AMOUNT"]) else (0, [])

/-- Rule 6 of _rule_based_prediction: payment failure history. -/
def ruleFailures (fs : Features) : ℚ × List String :=
  if fgetNum fs "previous_failure_rate" 0 > 0.5 then (25, ["HIGH_FAILURE_HISTORY"]) else (0, [])

/-- The accumulated rule risk score of _rule_based_prediction. -/
def ruleRiskScore (fs : Features) : ℚ :=
  (ruleAmountDev fs).1 + (ruleVelocity fs).1 + (ruleNight fs).1 +
  (ruleShortSession fs).1 + (ruleNewUser fs).1 + (ruleFailures fs).1

/-- The accumulated risk factor codes of _rule_based_prediction, in rule
order. -/
def ruleFactors (fs : Features) : List String :=
  (ruleAmountDev fs).2 ++ (ruleVelocity fs).2 ++ (ruleNight fs).2 ++
  (ruleShortSession fs).2 ++ (ruleNewUser fs).2 ++ (ruleFailures fs).2

/-- FraudPredictor._rule_based_prediction: six rules accumulate a score
and factor codes; probability = min(score/100, 1); fraud iff probability
reaches the configured threshold. -/
def ruleBasedPrediction (threshold : ℚ) (fs : Features) : Bool × ℚ × Explanation :=
  let riskScore := ruleRiskScore fs
  let factors := ruleFactors fs
  let probability := min (riskScore / 100) 1
  let isFraud := decide (probability ≥ threshold)
  (isFraud, probability,
   { method := some "rule_based",
     risk_factors := factors,
     risk_score := some riskScore,
     rules_applied := some factors.length,
     confidence := probability * 100 })

/-- FraudPredictor.explain_prediction.  Each triggered flag contributes
a factor string, a contribution weight and a risk code, in source order;
contributions are normalised to percentages when their sum is positive;
confidence and summary are governed by the truthiness of probability. -/
def explainPrediction (fs : Features) (probability : Option ℚ) : Explanation :=
  let entries : List (String × ℚ × String) :=
    (if fgetEqOne fs "high_amount_deviation" then
      [("Amount is higher than user average", 30, "HIGH_AMOUNT_DEVIATION")] else []) ++
    (if fgetEqOne fs "high_hourly_velocity" then
      [("High transaction frequency", 25, "HIGH_TRANSACTION_VELOCITY")] else []) ++
    (if fgetEqOne fs "night_transaction" then
      [("Transaction occurred during unusual hours", 15, "NIGHT_TRANSACTION")] else []) ++
    (if fgetEqOne fs "short_session_flag" then
      [("Very short session duration", 20, "SHORT_SESSION")] else []) ++
    (if fgetEqOne fs "high_failure_history" then
      [("High previous failure rate", 25, "HIGH_FAILURE_HISTORY")] else []) ++
    (if fgetEqOne fs "new_user_high_amount" then
      [("New user with high amount", 35, "NEW_USER_HIGH_AMOUNT")] else []) ++
    (if fgetEqOne fs "device_anomaly" then
      [("Unusual device or location pattern", 20, "DEVICE_ANOMALY")] else [])
  let contributions := entries.map (fun e => e.2.1)
  let total := contributions.sum
  let normalized := if total > 0 then contributions.map (fun c => c / total * 100) else contributions
  let conf : ℚ := match probability with
    | some q => if q ≠ 0 then q * 100 else 0
    | none => 0
  let summ : Option String := match probability with
    | some q =>
      if q ≠ 0 then
        some (if q ≥ 0.9 then "Very high fraud risk"
              else if q ≥ 0.7 then "High fraud risk"
              else if q ≥ 0.5 then "Moderate fraud risk"
              else "Low fraud risk")
      else none
    | none => none
  { factors := entries.map (fun e => e.1),
    contributions := normalized,
    risk_factors := entries.map (fun e => e.2.2),
    confidence := conf,
    summary := summ }

/-- The expected model columns of FraudPredictor._ensure_feature_columns. -/
def expectedColumns : List String :=
  ["transaction_amount", "amount_log", "hour_of_day", "day_of_week",
   "is_weekend", "is_night_hours", "session_duration", "short_session",
   "total_transaction_count", "amount_deviation_ratio", "hourly_velocity",
   "previous_failure_rate", "composite_risk_score"]

/-- FraudPredictor._ensure_feature_columns: any expected column missing
from the frame is added with value 0; existing columns are untouched. -/
def ensureFeatureColumns (fs : Features) : Features :=
  fs ++ (expectedColumns.filter (fun c => (fget fs c).isNone)).map (fun c => (c, PyVal.num 0))

/-- The in-memory predictor state: whether a model artifact is loaded,
the loaded model's inference call (predict_proba row, or the 0/1 predict
fallback — either way a fraud probability, raising is the error case),
the anomaly detector's detect call (None models its absence or an
internally swallowed failure), and config['threshold']. -/
structure PredictorState where
  model_loaded : Bool
  modelEval : Features → Except String ℚ
  anomalyEval : Features → Option (Bool × ℚ)
  threshold : ℚ := 0.8

/-- FraudPredictor.predict: with a loaded model, run inference on the
column-completed features and explain; any exception raised during that
(modelled in the inference call) falls back to the rule-based path, as
does the no-model case. -/
def predict (st : PredictorState) (fs : Features) : Bool × ℚ × Explanation :=
  if st.model_loaded then
    match st.modelEval (ensureFeatureColumns fs) with
    | .ok p => (decide (p ≥ st.threshold), p, explainPrediction fs (some p))
    | .error _ => ruleBasedPrediction st.threshold fs
  else ruleBasedPrediction st.threshold fs

/-- FraudPredictor.predict with the predictor state threaded explicitly:
the method body never assigns to self, so the state component of the
result is the input state. -/
def predictSt (st : PredictorState) (fs : Features) :
    (Bool × ℚ × Explanation) × PredictorState :=
  (predict st fs, st)

/-- FraudPredictor._calculate_risk_score. -/
def calcRiskScore (fs : Features) (p : ℚ) : ℚ :=
  let base := p * 100
  let amount := fgetNum fs "transaction_amount" 0
  let b2 := if amount > 1000 then base * 1.2
            else if amount > 500 then base * 1.1
            else base
  let b3 := if fgetEqOne fs "is_first_transaction" then b2 * 1.3 else b2
  min b3 100

/-- FraudPredictor._determine_risk_level. -/
def determineRiskLevel (r : ℚ) : String :=
  if r ≥ 90 then "CRITICAL"
  else if r ≥ 70 then "HIGH"
  else if r ≥ 30 then "MEDIUM"
  else "LOW"

/-- A recommended-action dictionary. -/
structure RecAction where
  action : String
  reason : String
  steps : List String
deriving DecidableEq, Repr

/-- FraudPredictor._get_recommended_action. -/
def getRecommendedAction (isFraud : Bool) (level : String) : RecAction :=
  if isFraud || level == "CRITICAL" then
    ⟨"BLOCK", "High fraud probability",
     ["Block transaction", "Flag account", "Notify security team"]⟩
  else if level == "HIGH" then
    ⟨"REVIEW", "Suspicious activity detected",
     ["Require additional verification", "Review manually", "Monitor account"]⟩
  else if level == "MEDIUM" then
    ⟨"MONITOR", "Moderate risk detected",
     ["Allow transaction", "Monitor for patterns", "Update risk profile"]⟩
  else
    ⟨"ALLOW", "Low risk transaction", ["Process normally"]⟩

/-- Whether the needle occurs as a contiguous sublist of the haystack. -/
def subOf (needle : List Char) : List Char → Bool
  | [] => needle.isEmpty
  | c :: rest => needle.isPrefixOf (c :: rest) || subOf needle rest

/-- key.lower() on the character list (the feature keys are ASCII). -/
def lowerChars (k : String) : List Char :=
  k.toList.map Char.toLower

/-- Whether key.lower() contains one of the sensitive patterns of
FraudPredictor._sanitize_features. -/
def keyIsSensitive (k : String) : Bool :=
  ["password", "token", "secret", "key", "cvv", "pin"].any
    (fun pat => subOf pat.toList (lowerChars k))

/-- Unwrapping value.item() when the value is a numpy scalar. -/
def unwrapNp (v : PyVal) : PyVal :=
  match v with
  | .npnum q => .num q
  | w => w

/-- FraudPredictor._sanitize_features: the loop skips dict/list values,
replaces sensitive keys with '[REDACTED]', and otherwise keeps the value
with numpy scalars unwrapped. -/
def sanitizeFeatures : Features → Features
  | [] => []
  | (k, v) :: rest =>
    match v with
    | .dict => sanitizeFeatures rest
    | .list => sanitizeFeatures rest
    | w =>
      if keyIsSensitive k then (k, .str "[REDACTED]") :: sanitizeFeatures rest
      else (k, unwrapNp w) :: sanitizeFeatures rest

/-- The prediction sub-dictionary of a batch result. -/
structure PredInfo where
  is_fraud : Bool
  probability : ℚ
  confidence : ℚ
deriving DecidableEq, Repr

/-- The risk_assessment sub-dictionary of a batch result. -/
structure RiskInfo where
  score : ℚ
  level : String
  factors : List String
deriving DecidableEq, Repr

/-- A fully scored batch entry.  timestamp carries the transaction's own
timestamp; the Python default fills datetime.now().isoformat() when it
is absent, a presentation value no claim consumes. -/
structure OkResult where
  transaction_id : String
  user_id : Option String
  amount : Option ℚ
  timestamp : Option ℚ
  prediction : PredInfo
  risk_assessment : RiskInfo
  explanation : Explanation
  recommended_action : RecAction
  features : Features
  anomaly_detection : Option (Bool × ℚ)
deriving DecidableEq, Repr

/-- The error entry appended for a transaction whose processing raised. -/
structure ErrResult where
  transaction_id : String
  error : String
  success : Bool
deriving DecidableEq, Repr

/-- A batch entry: either a fully scored result or an error entry. -/
inductive BatchResult where
  | ok (r : OkResult)
  | err (e : ErrResult)
deriving DecidableEq, Repr

/-- The error entry built in the except branch of predict_batch:
transaction.get('id', 'txn_i'), the exception text, success False. -/
def errEntry (i : ℕ) (t : Txn) (e : String) : ErrResult :=
  ⟨t.id.getD ("txn_" ++ toString i), e, false⟩

/-- The history list chosen for a transaction in predict_batch:
user_history[user_id] when the map, the id (a falsy empty id fails the
check) and the membership test all hold, else []. -/
def histFor (hm : List (String × List HistRec)) (t : Txn) : List HistRec :=
  match t.user_id with
  | none => []
  | some uid =>
    if uid = "" then []
    else ((hm.find? (fun p => p.1 == uid)).map (fun p => p.2)).getD []

/-- The try-block body of one predict_batch iteration: extract features,
predict, score, assemble the result dictionary (features sanitized,
anomaly detection only with a loaded model). -/
def processTxn (st : PredictorState) (ext : Ext) (now : ℚ)
    (hm : List (String × List HistRec)) (i : ℕ) (t : Txn) : OkResult :=
  let fs := extractFeatures ext now t (histFor hm t)
  let pr := predict st fs
  let isFraud := pr.1
  let p := pr.2.1
  let expl := pr.2.2
  let rs := calcRiskScore fs p
  let lvl := determineRiskLevel rs
  { transaction_id := t.id.getD ("txn_" ++ toString i),
    user_id := t.user_id,
    amount := t.amount,
    timestamp := t.timestamp,
    prediction := ⟨isFraud, p, min (p * 100) 100⟩,
    risk_assessment := ⟨rs, lvl, expl.risk_factors⟩,
    explanation := expl,
    recommended_action := getRecommendedAction isFraud lvl,
    features := sanitizeFeatures fs,
    anomaly_detection := if st.model_loaded then st.anomalyEval fs else none }

/-- The predict_batch loop: each iteration appends the try-block result,
or the error entry when that iteration's body raises.  The step function
abstracts the body so that an exception anywhere in it (untyped Python
input, pandas errors, ...) is representable. -/
def batchLoop (step : ℕ → Txn → Except String OkResult) : ℕ → List Txn → List BatchResult
  | _, [] => []
  | i, t :: ts =>
    (match step i t with
     | .ok r => BatchResult.ok r
     | .error e => BatchResult.err (errEntry i t e)) :: batchLoop step (i + 1) ts

/-- FraudPredictor.predict_batch with the concrete (non-raising in the
typed model) per-transaction body. -/
def predictBatch (st : PredictorState) (ext : Ext) (now : ℚ)
    (hm : List (String × List HistRec)) (txns : List Txn) : List BatchResult :=
  batchLoop (fun i t => .ok (processTxn st ext now hm i t)) 0 txns

/-- predict_batch with the predictor state threaded: the method reads
but never assigns self, so the state is returned unchanged. -/
def predictBatchSt (st : PredictorState) (ext : Ext) (now : ℚ)
    (hm : List (String × List HistRec)) (txns : List Txn) :
    List BatchResult × PredictorState :=
  (predictBatch st ext now hm txns, st)

/-- The trainer configuration self.config of FraudModelTrainer.  The
persistence path treats it as an opaque payload; the nested per-model
hyperparameter tables are elided, the scalar fields stand for the whole
pickled value. -/
structure TrainConfig where
  test_size : ℚ := 0.2
  random_state : ℕ := 42
  cv_folds : ℕ := 5
  model_path : String := "models/fraud_model.pkl"
deriving DecidableEq, Repr

/-- A trained classifier object, characterised by its prediction
function on numeric feature rows.  Pickle serialisation is faithful, so
the stored object is the object itself. -/
structure MLModel where
  predictProb : List ℚ → ℚ

/-- The dictionary pickled by FraudModelTrainer._save_model. -/
structure ModelInfo where
  model : MLModel
  feature_names : List String
  trained_at : String
  model_type : String
  config : TrainConfig

/-- The filesystem as a map from paths to pickled artifacts; a fresh
write shadows an older one at the same path. -/
abbrev Store := List (String × ModelInfo)

/-- FraudModelTrainer._save_model: pickle the five-key dictionary
(model, feature_names, trained_at, model_type, config) to the path.
trained_at is datetime.now().isoformat(), passed in as nowIso; the
model_type string type(model).__name__ is passed in as tname. -/
def trainSaveModel (store : Store) (path : String) (model : MLModel)
    (tname : String) (featureNames : List String) (nowIso : String)
    (cfg : TrainConfig) : Store :=
  (path, ⟨model, featureNames, nowIso, tname, cfg⟩) :: store

/-- The best_model dictionary maintained by FraudModelTrainer. -/
structure BestModel where
  model_type : String
  model : MLModel
  feature_names : List String
  trained_at : Option String
  model_path : Option String := none

/-- The dictionary returned by FraudModelTrainer.load_model on success:
success, model_type, feature_names, trained_at, model — and no config. -/
structure LoadRes where
  model_type : String
  feature_names : List String
  trained_at : Option String
  model : MLModel

/-- The trainer's in-memory state touched by load_model. -/
structure TrainerState where
  config : TrainConfig
  models : List (String × MLModel) := []
  best_model : Option BestModel := none

/-- FraudModelTrainer.load_model: unpickle the artifact, register the
model under its model_type, update best_model, and return the result
dictionary; a missing or unreadable file is the caught-exception case.
self.config is never assigned. -/
def trainLoadModel (st : TrainerState) (store : Store) (path : String) :
    TrainerState × Except String LoadRes :=
  match store.find? (fun p => p.1 == path) with
  | none => (st, .error "file not found")
  | some pr =>
    let info := pr.2
    ({ st with
        models := (info.model_type, info.model) :: st.models,
        best_model := some ⟨info.model_type, info.model, info.feature_names,
                            some info.trained_at, some path⟩ },
     .ok ⟨info.model_type, info.feature_names, some info.trained_at, info.model⟩)

/-- FraudPredictor.save_model: pickle self.model (the bare classifier,
nothing else) to the path; with no model, fail and leave the store
unchanged. -/
def predSaveModel (store : List (String × MLModel)) (path : String)
    (model : Option MLModel) : List (String × MLModel) × Bool :=
  match model with
  | none => (store, false)
  | some m => ((path, m) :: store, true)

/-- FraudPredictor.load_model: unpickle the file into self.model. -/
def predLoadModel (store : List (String × MLModel)) (path : String) :
    Option MLModel :=
  (store.find? (fun p => p.1 == path)).map (fun p => p.2)

/-- Modelled from the spec (for the refinement reading of the sanitizer
claim): the per-entry behaviour the claim describes, to be compared with
sanitizeFeatures — drop container values, redact sensitive keys, unwrap
numpy scalars, keep the rest. -/
def sanitizeStepSpec (kv : String × PyVal) : Option (String × PyVal) :=
  match kv.2 with
  | .dict => none
  | .list => none
  | w =>
    if keyIsSensitive kv.1 then some (kv.1, .str "[REDACTED]")
    else some (kv.1, unwrapNp w)

/-- The per-consumption-site defaults the prediction stage supplies for
the three behaviour keys a first-time user's vector lacks
(.get('amount_deviation_ratio', 1), .get('hourly_velocity', 0),
.get('previous_failure_rate', 0)). -/
def neutralDefaults : Features :=
  [("amount_deviation_ratio", .num 1), ("hourly_velocity", .num 0),
   ("previous_failure_rate", .num 0)]

/-- The transaction of the rule-fallback scenario: amount 999.99, first
transaction, 45-second session, given timestamp (whose calendar hour the
scenario fixes at 2). -/
def c1Txn (ts : ℚ) : Txn :=
  { amount := some 999.99, is_first := true, session_duration := 45,
    timestamp := some ts }

/-- A concrete choice of the external library functions, decomposing any
timestamp to 2:00 on a mid-May Thursday. -/
def extW : Ext :=
  { log1p := fun q => q, std := fun _ => 0, md5int := fun _ => 0,
    toDT := fun _ => ⟨2, 3, 15, 5⟩ }

/-- A predictor with no model artifact loaded. -/
def stNoModel : PredictorState :=
  { model_loaded := false, modelEval := fun _ => .error "no model",
    anomalyEval := fun _ => none }

/-- A predictor whose loaded model raises on every inference call. -/
def stErr : PredictorState :=
  { model_loaded := true, modelEval := fun _ => .error "shape mismatch",
    anomalyEval := fun _ => none }

/-- A predictor whose loaded model returns probability 0.95. -/
def stModelOk : PredictorState :=
  { model_loaded := true, modelEval := fun _ => .ok 0.95,
    anomalyEval := fun _ => none }

/-- A batch step that raises on the second transaction and scores the
others with the rule-based predictor. -/
def stepW : ℕ → Txn → Except String OkResult := fun i t =>
  if i = 1 then .error "missing amount"
  else .ok (processTxn stNoModel extW 0 [] i t)

/-- A three-transaction batch input. -/
def txnsW : List Txn := [c1Txn 0, c1Txn 0, c1Txn 0]

/-- A concrete classifier object. -/
def mlW : MLModel := ⟨fun xs => xs.sum⟩

/-- A trainer configuration differing from the default one. -/
def cfgSaved : TrainConfig := { random_state := 7 }

/-- A trainer whose in-memory configuration is the default one. -/
def trainerStart : TrainerState := { config := {} }

end Fraud

namespace Fraud

lemma fget_append (a b : Features) (k : String) :
    fget (a ++ b) k = (fget a k).or (fget b k) := by
  unfold fget
  rw [List.find?_append]
  cases List.find? (fun p => p.1 == k) a <;> simp [Option.or]

lemma fget_derived_ratio (fs : Features) :
    fget (calcDerivedFeatures fs) "amount_deviation_ratio" = none := rfl

lemma fget_derived_velocity (fs : Features) :
    fget (calcDerivedFeatures fs) "hourly_velocity" = none := rfl

lemma fget_derived_failrate (fs : Features) :
    fget (calcDerivedFeatures fs) "previous_failure_rate" = none := rfl

lemma fget_derived_night (fs : Features) :
    fget (calcDerivedFeatures fs) "is_night_hours" = none := rfl

lemma fget_derived_short (fs : Features) :
    fget (calcDerivedFeatures fs) "short_session" = none := rfl

lemma fget_derived_first (fs : Features) :
    fget (calcDerivedFeatures fs) "is_first_transaction" = none := rfl

lemma fget_derived_amount (fs : Features) :
    fget (calcDerivedFeatures fs) "transaction_amount" = none := rfl

lemma fget_derived_composite (fs : Features) :
    fget (calcDerivedFeatures fs) "composite_risk_score" =
      some (.num (min (derivedRiskSum fs) 100)) := rfl

lemma fget_extract_eq_base (ext : Ext) (now : ℚ) (t : Txn) (hist : List HistRec)
    (k : String)
    (h : fget (calcDerivedFeatures (baseFeatures ext now t hist)) k = none) :
    fget (extractFeatures ext now t hist) k = fget (baseFeatures ext now t hist) k := by
  unfold extractFeatures
  rw [fget_append, h, Option.or_none]

lemma fget_base_composite (ext : Ext) (now : ℚ) (t : Txn) (hist : List HistRec) :
    fget (baseFeatures ext now t hist) "composite_risk_score" = none := by
  cases hist <;> by_cases hip : t.ip_address = "" <;>
    simp [baseFeatures, extractTransactionFeatures, extractUserBehaviorFeatures,
      extractTemporalFeatures, extractTechnicalFeatures, fget, List.find?_append,
      List.find?, hip]

lemma fget_base_empty_ratio (ext : Ext) (now : ℚ) (t : Txn) :
    fget (baseFeatures ext now t []) "amount_deviation_ratio" = none := by
  by_cases hip : t.ip_address = "" <;>
    simp [baseFeatures, extractTransactionFeatures, extractTemporalFeatures,
      extractTechnicalFeatures, fget, List.find?_append, List.find?, hip]

lemma fget_base_empty_velocity (ext : Ext) (now : ℚ) (t : Txn) :
    fget (baseFeatures ext now t []) "hourly_velocity" = none := by
  by_cases hip : t.ip_address = "" <;>
    simp [baseFeatures, extractTransactionFeatures, extractTemporalFeatures,
      extractTechnicalFeatures, fget, List.find?_append, List.find?, hip]

lemma fget_base_empty_failrate (ext : Ext) (now : ℚ) (t : Txn) :
    fget (baseFeatures ext now t []) "previous_failure_rate" = none := by
  by_cases hip : t.ip_address = "" <;>
    simp [baseFeatures, extractTransactionFeatures, extractTemporalFeatures,
      extractTechnicalFeatures, fget, List.find?_append, List.find?, hip]

end Fraud
namespace Fraud

/-- C2 (amended): with empty user history, extract_features emits no
amount_deviation_ratio, hourly_velocity or previous_failure_rate keys at
all (behaviour features are skipped for a falsy history), and the
rule-based prediction stage treats such a vector exactly as if those
keys were present with their consumption-site neutral defaults (ratio 1,
velocity 0, failure rate 0). -/
theorem first_user_feature_defaults (ext : Ext) (now : ℚ) (t : Txn) (th : ℚ) :
    fget (extractFeatures ext now t []) "amount_deviation_ratio" = none ∧
    fget (extractFeatures ext now t []) "hourly_velocity" = none ∧
    fget (extractFeatures ext now t []) "previous_failure_rate" = none ∧
    ruleBasedPrediction th (extractFeatures ext now t []) =
      ruleBasedPrediction th (extractFeatures ext now t [] ++ neutralDefaults) := by
  have hr : fget (extractFeatures ext now t []) "amount_deviation_ratio" = none := by
    rw [fget_extract_eq_base ext now t [] _ (fget_derived_ratio _)]
    exact fget_base_empty_ratio ext now t
  have hv : fget (extractFeatures ext now t []) "hourly_velocity" = none := by
    rw [fget_extract_eq_base ext now t [] _ (fget_derived_velocity _)]
    exact fget_base_empty_velocity ext now t
  have hf : fget (extractFeatures ext now t []) "previous_failure_rate" = none := by
    rw [fget_extract_eq_base ext now t [] _ (fget_derived_failrate _)]
    exact fget_base_empty_failrate ext now t
  refine ⟨hr, hv, hf, ?_⟩
  have e1 : fgetNum (extractFeatures ext now t [] ++ neutralDefaults) "amount_deviation_ratio" 1 =
      fgetNum (extractFeatures ext now t []) "amount_deviation_ratio" 1 := by
    unfold fgetNum
    rw [fget_append, hr]
    rfl
  have e2 : fgetNum (extractFeatures ext now t [] ++ neutralDefaults) "hourly_velocity" 0 =
      fgetNum (extractFeatures ext now t []) "hourly_velocity" 0 := by
    unfold fgetNum
    rw [fget_append, hv]
    rfl
  have e3 : fgetNum (extractFeatures ext now t [] ++ neutralDefaults) "previous_failure_rate" 0 =
      fgetNum (extractFeatures ext now t []) "previous_failure_rate" 0 := by
    unfold fgetNum
    rw [fget_append, hf]
    rfl
  have e4 : fget (extractFeatures ext now t [] ++ neutralDefaults) "is_night_hours" =
      fget (extractFeatures ext now t []) "is_night_hours" := by
    rw [fget_append, show fget neutralDefaults "is_night_hours" = none from rfl, Option.or_none]
  have e5 : fget (extractFeatures ext now t [] ++ neutralDefaults) "short_session" =
      fget (extractFeatures ext now t []) "short_session" := by
    rw [fget_append, show fget neutralDefaults "short_session" = none from rfl, Option.or_none]
  have e6 : fget (extractFeatures ext now t [] ++ neutralDefaults) "is_first_transaction" =
      fget (extractFeatures ext now t []) "is_first_transaction" := by
    rw [fget_append, show fget neutralDefaults "is_first_transaction" = none from rfl, Option.or_none]
  have e7 : fgetNum (extractFeatures ext now t [] ++ neutralDefaults) "transaction_amount" 0 =
      fgetNum (extractFeatures ext now t []) "transaction_amount" 0 := by
    unfold fgetNum
    rw [fget_append, show fget neutralDefaults "transaction_amount" = none from rfl, Option.or_none]
  unfold ruleBasedPrediction ruleRiskScore ruleFactors ruleAmountDev ruleVelocity
    ruleNight ruleShortSession ruleNewUser ruleFailures fgetEqOne
  rw [e1, e2, e3, e4, e5, e6, e7]

/-- C2 (counterexample): for a concrete first-time user's transaction
with empty history, the extracted vector does not carry the claimed
sentinel — the amount_deviation_ratio key is absent, not 10. -/
theorem first_user_ratio_counterexample :
    fget (extractFeatures extW 0 (c1Txn 0) []) "amount_deviation_ratio" = none ∧
    ¬ fget (extractFeatures extW 0 (c1Txn 0) []) "amount_deviation_ratio" =
        some (PyVal.num 10) := by
  have h : fget (extractFeatures extW 0 (c1Txn 0) []) "amount_deviation_ratio" = none := by
    rw [fget_extract_eq_base extW 0 (c1Txn 0) [] _ (fget_derived_ratio _)]
    exact fget_base_empty_ratio extW 0 (c1Txn 0)
  exact ⟨h, by rw [h]; simp⟩

/-- C3: for every transaction and history, the composite_risk_score
feature of the extracted vector is the weighted sum of the six trigger
flags (+30 deviation ratio > 3, +25 hourly velocity > 5, +15 night
hours, +20 short session, +25 failure rate > 0.3, +35 first transaction
with amount > 100), capped at 100. -/
theorem composite_risk_score_formula (ext : Ext) (now : ℚ) (t : Txn)
    (hist : List HistRec) :
    fget (extractFeatures ext now t hist) "composite_risk_score" =
      some (.num (min
        ((if fgetNum (extractFeatures ext now t hist) "amount_deviation_ratio" 1 > 3 then (30:ℚ) else 0) +
         (if fgetNum (extractFeatures ext now t hist) "hourly_velocity" 0 > 5 then 25 else 0) +
         (if fgetEqOne (extractFeatures ext now t hist) "is_night_hours" then 15 else 0) +
         (if fgetEqOne (extractFeatures ext now t hist) "short_session" then 20 else 0) +
         (if fgetNum (extractFeatures ext now t hist) "previous_failure_rate" 0 > 0.3 then 25 else 0) +
         (if truthyOpt (fget (extractFeatures ext now t hist) "is_first_transaction") = true ∧
             fgetNum (extractFeatures ext now t hist) "transaction_amount" 0 > 100 then 35 else 0))
        100)) := by
  have hb := fget_base_composite ext now t hist
  have h1 := fget_extract_eq_base ext now t hist _ (fget_derived_ratio _)
  have h2 := fget_extract_eq_base ext now t hist _ (fget_derived_velocity _)
  have h3 := fget_extract_eq_base ext now t hist _ (fget_derived_night _)
  have h4 := fget_extract_eq_base ext now t hist _ (fget_derived_short _)
  have h5 := fget_extract_eq_base ext now t hist _ (fget_derived_failrate _)
  have h6 := fget_extract_eq_base ext now t hist _ (fget_derived_first _)
  have h7 := fget_extract_eq_base ext now t hist _ (fget_derived_amount _)
  rw [show fget (extractFeatures ext now t hist) "composite_risk_score" =
        fget (calcDerivedFeatures (baseFeatures ext now t hist)) "composite_risk_score" by
      unfold extractFeatures
      rw [fget_append, hb, Option.none_or]]
  rw [fget_derived_composite]
  unfold fgetNum fgetEqOne
  rw [h1, h2, h3, h4, h5, h6, h7]
  simp only [derivedRiskSum, flagHighDeviation, flagHighVelocity, flagNight,
    flagShort, flagFailures, flagNewUser, fgetNum, fgetEqOne,
    Bool.and_eq_true, decide_eq_true_eq]

/-- C4: the assessment risk score is probability×100 under a tiered
amount multiplier (×1.2 above 1000, else ×1.1 above 500) and a ×1.3
first-transaction multiplier, capped at 100; and the risk level bands
are CRITICAL ≥ 90, HIGH in [70,90), MEDIUM in [30,70), LOW below 30. -/
theorem risk_score_and_levels (fs : Features) (p r : ℚ) :
    calcRiskScore fs p =
      min ((p * 100) *
        (if fgetNum fs "transaction_amount" 0 > 1000 then 1.2
         else if fgetNum fs "transaction_amount" 0 > 500 then 1.1 else 1) *
        (if fgetEqOne fs "is_first_transaction" then 1.3 else 1)) 100 ∧
    (determineRiskLevel r = "CRITICAL" ↔ 90 ≤ r) ∧
    (determineRiskLevel r = "HIGH" ↔ 70 ≤ r ∧ r < 90) ∧
    (determineRiskLevel r = "MEDIUM" ↔ 30 ≤ r ∧ r < 70) ∧
    (determineRiskLevel r = "LOW" ↔ r < 30) := by
  refine ⟨?_, ?_, ?_, ?_, ?_⟩
  · unfold calcRiskScore
    by_cases h1 : fgetNum fs "transaction_amount" 0 > 1000 <;>
      by_cases h2 : fgetNum fs "transaction_amount" 0 > 500 <;>
      by_cases h3 : fgetEqOne fs "is_first_transaction" = true <;>
      simp [h1, h2, h3, mul_one]
  · unfold determineRiskLevel
    split_ifs with h1 h2 h3 <;> simp <;> linarith
  · unfold determineRiskLevel
    split_ifs with h1 h2 h3 <;> push_neg at * <;> simp <;>
      first
      | linarith
      | (intro h; linarith)
      | exact ⟨by linarith, by linarith⟩
  · unfold determineRiskLevel
    split_ifs with h1 h2 h3 <;> push_neg at * <;> simp <;>
      first
      | linarith
      | (intro h; linarith)
      | exact ⟨by linarith, by linarith⟩
  · unfold determineRiskLevel
    split_ifs with h1 h2 h3 <;> simp <;> linarith

end Fraud
namespace Fraud

lemma ruleRiskScore_nonneg (fs : Features) : 0 ≤ ruleRiskScore fs := by
  have h1 : 0 ≤ (ruleAmountDev fs).1 := by
    unfold ruleAmountDev
    try dsimp only
    split_ifs <;> norm_num
  have h2 : 0 ≤ (ruleVelocity fs).1 := by
    unfold ruleVelocity
    try dsimp only
    split_ifs <;> norm_num
  have h3 : 0 ≤ (ruleNight fs).1 := by
    unfold ruleNight
    try dsimp only
    split_ifs <;> norm_num
  have h4 : 0 ≤ (ruleShortSession fs).1 := by
    unfold ruleShortSession
    try dsimp only
    split_ifs <;> norm_num
  have h5 : 0 ≤ (ruleNewUser fs).1 := by
    unfold ruleNewUser
    try dsimp only
    split_ifs <;> norm_num
  have h6 : 0 ≤ (ruleFailures fs).1 := by
    unfold ruleFailures
    try dsimp only
    split_ifs <;> norm_num
  unfold ruleRiskScore
  linarith

lemma ruleProb_eq (th : ℚ) (fs : Features) :
    (ruleBasedPrediction th fs).2.1 = min (ruleRiskScore fs / 100) 1 := rfl

lemma ruleProb_bounds (th : ℚ) (fs : Features) :
    0 ≤ (ruleBasedPrediction th fs).2.1 ∧ (ruleBasedPrediction th fs).2.1 ≤ 1 := by
  rw [ruleProb_eq]
  constructor
  · exact le_min (div_nonneg (ruleRiskScore_nonneg fs) (by norm_num)) zero_le_one
  · exact min_le_right _ _

lemma calcRiskScore_bounds (fs : Features) (p : ℚ) (hp : 0 ≤ p) :
    0 ≤ calcRiskScore fs p ∧ calcRiskScore fs p ≤ 100 := by
  unfold calcRiskScore
  constructor
  · apply le_min _ (by norm_num)
    split_ifs <;> nlinarith
  · exact min_le_right _ _

/-- C8: on every path — model inference (whose returned probability the
classifier keeps in [0,1]) or rule fallback — the probability returned
by predict lies in [0,1], and the assessment risk score computed from it
lies in [0,100]. -/
theorem probability_and_risk_bounds (st : PredictorState) (fs : Features)
    (hm : ∀ q, st.modelEval (ensureFeatureColumns fs) = .ok q → 0 ≤ q ∧ q ≤ 1) :
    0 ≤ (predict st fs).2.1 ∧ (predict st fs).2.1 ≤ 1 ∧
    0 ≤ calcRiskScore fs (predict st fs).2.1 ∧
    calcRiskScore fs (predict st fs).2.1 ≤ 100 := by
  have hp : 0 ≤ (predict st fs).2.1 ∧ (predict st fs).2.1 ≤ 1 := by
    unfold predict
    by_cases hl : st.model_loaded
    · simp only [hl, if_true]
      cases hq : st.modelEval (ensureFeatureColumns fs) with
      | ok q => simpa using hm q hq
      | error e => exact ruleProb_bounds st.threshold fs
    · simp only [hl, if_false]
      exact ruleProb_bounds st.threshold fs
  exact ⟨hp.1, hp.2, (calcRiskScore_bounds fs _ hp.1).1, (calcRiskScore_bounds fs _ hp.1).2⟩

/-- Witness for C8 at a loaded model returning probability 0.95 on the
empty feature dictionary. -/
theorem probability_and_risk_bounds_witness :
    (∀ q, stModelOk.modelEval (ensureFeatureColumns []) = .ok q → 0 ≤ q ∧ q ≤ 1) ∧
    (0 ≤ (predict stModelOk []).2.1 ∧ (predict stModelOk []).2.1 ≤ 1 ∧
     0 ≤ calcRiskScore [] (predict stModelOk []).2.1 ∧
     calcRiskScore [] (predict stModelOk []).2.1 ≤ 100) := by
  have hq : ∀ q, stModelOk.modelEval (ensureFeatureColumns []) = .ok q → 0 ≤ q ∧ q ≤ 1 := by
    intro q h
    simp [stModelOk] at h
    rw [← h]
    norm_num
  exact ⟨hq, probability_and_risk_bounds stModelOk [] hq⟩

lemma batchLoop_length (step : ℕ → Txn → Except String OkResult) :
    ∀ (i : ℕ) (txns : List Txn), (batchLoop step i txns).length = txns.length := by
  intro i txns
  induction txns generalizing i with
  | nil => rfl
  | cons t ts ih => simp [batchLoop, ih]

lemma batchLoop_getElem (step : ℕ → Txn → Except String OkResult) :
    ∀ (txns : List Txn) (i j : ℕ) (t : Txn), txns[j]? = some t →
      (batchLoop step i txns)[j]? = some (match step (i + j) t with
        | .ok r => BatchResult.ok r
        | .error e => BatchResult.err (errEntry (i + j) t e)) := by
  intro txns
  induction txns with
  | nil =>
    intro i j t h
    simp at h
  | cons a as ih =>
    intro i j t h
    cases j with
    | zero =>
      simp at h
      subst h
      simp [batchLoop]
    | succ j2 =>
      have hidx : i + (j2 + 1) = (i + 1) + j2 := by omega
      rw [hidx]
      have hrec := ih (i + 1) j2 t (by simpa using h)
      simpa [batchLoop] using hrec

/-- C6: for every per-transaction body (including one that raises on
some inputs), predict_batch returns exactly one entry per transaction in
input order: position j carries the scored result of transaction j, or,
when the body raises there, an error entry with that transaction's id
and the message — other positions are unaffected. -/
theorem batch_order_and_errors (step : ℕ → Txn → Except String OkResult)
    (txns : List Txn) :
    (batchLoop step 0 txns).length = txns.length ∧
    ∀ (j : ℕ) (t : Txn), txns[j]? = some t →
      (batchLoop step 0 txns)[j]? = some (match step j t with
        | .ok r => BatchResult.ok r
        | .error e => BatchResult.err (errEntry j t e)) := by
  constructor
  · exact batchLoop_length step 0 txns
  · intro j t h
    simpa using batchLoop_getElem step txns 0 j t h

/-- Witness for C6 on a three-transaction batch whose second entry
raises: five conjuncts pin the length and the error entry at index 1. -/
theorem batch_order_and_errors_witness :
    txnsW[1]? = some (c1Txn 0) ∧
    (batchLoop stepW 0 txnsW).length = txnsW.length ∧
    (batchLoop stepW 0 txnsW)[1]? =
      some (BatchResult.err (errEntry 1 (c1Txn 0) "missing amount")) := by
  refine ⟨rfl, (batch_order_and_errors stepW txnsW).1, ?_⟩
  have h := (batch_order_and_errors stepW txnsW).2 1 (c1Txn 0) rfl
  simpa [stepW] using h

/-- C7: when the loaded model's inference raises, predict returns the
rule-based prediction for that call and the predictor state is returned
unchanged. -/
theorem model_error_fallback (st : PredictorState) (fs : Features) (e : String)
    (hl : st.model_loaded = true)
    (he : st.modelEval (ensureFeatureColumns fs) = .error e) :
    predictSt st fs = (ruleBasedPrediction st.threshold fs, st) := by
  simp [predictSt, predict, hl, he]

/-- Witness for C7 at a predictor whose model raises on every call. -/
theorem model_error_fallback_witness :
    stErr.model_loaded = true ∧
    stErr.modelEval (ensureFeatureColumns []) = .error "shape mismatch" ∧
    predictSt stErr [] = (ruleBasedPrediction stErr.threshold [], stErr) :=
  ⟨rfl, rfl, model_error_fallback stErr [] "shape mismatch" rfl rfl⟩

/-- C9: scoring the same transactions with the same histories and the
same reference time twice in a row — the first call hands back the
predictor state it was given — produces identical result lists. -/
theorem deterministic_rescoring (st : PredictorState) (ext : Ext) (now : ℚ)
    (hm : List (String × List HistRec)) (txns : List Txn) :
    (predictBatchSt (predictBatchSt st ext now hm txns).2 ext now hm txns).1 =
      (predictBatchSt st ext now hm txns).1 ∧
    (predictBatchSt st ext now hm txns).2 = st :=
  ⟨rfl, rfl⟩

end Fraud
namespace Fraud

/-- C10 (amended): _sanitize_features drops every entry whose value is a
dict or list (this omission takes precedence over redaction), maps every
remaining key whose lowercase name contains one of the sensitive
patterns to the literal '[REDACTED]', and keeps all other entries with
numpy scalars unwrapped; the features field of every scored batch entry
is exactly this sanitization of its extracted vector. -/
theorem sanitize_features_behaviour (fs : Features) :
    sanitizeFeatures fs = fs.filterMap sanitizeStepSpec ∧
    ∀ (st : PredictorState) (ext : Ext) (now : ℚ)
      (hm : List (String × List HistRec)) (i : ℕ) (t : Txn),
      (processTxn st ext now hm i t).features =
        sanitizeFeatures (extractFeatures ext now t (histFor hm t)) := by
  constructor
  · induction fs with
    | nil => rfl
    | cons kv rest ih =>
      obtain ⟨k, v⟩ := kv
      cases v <;>
        by_cases hs : keyIsSensitive k = true <;>
        simp [sanitizeFeatures, sanitizeStepSpec, List.filterMap_cons, hs, ih]
  · intro st ext now hm i t
    rfl

/-- C10 (counterexample): the key password_info is sensitive, yet its
dict-valued entry is omitted rather than mapped to '[REDACTED]'. -/
theorem sanitize_redaction_counterexample :
    keyIsSensitive "password_info" = true ∧
    sanitizeFeatures [("password_info", PyVal.dict)] = [] := by
  exact ⟨by decide, rfl⟩

/-- C5 (amended): saving with train.py's _save_model and loading the
same path restores the classifier, the feature column names and the
training timestamp exactly (so the reloaded classifier predicts
identically on every input), and the artifact does persist the training
configuration — but load_model neither returns it nor installs it in the
trainer, whose in-memory configuration is left unchanged; predict.py's
save/load pair round-trips the bare classifier object only. -/
theorem persistence_roundtrip (store : Store) (st : TrainerState) (path : String)
    (model : MLModel) (tname : String) (fns : List String) (nowIso : String)
    (cfg : TrainConfig) (store2 : List (String × MLModel)) (path2 : String)
    (m2 : MLModel) :
    (trainLoadModel st (trainSaveModel store path model tname fns nowIso cfg) path).2 =
      .ok ⟨tname, fns, some nowIso, model⟩ ∧
    (trainLoadModel st (trainSaveModel store path model tname fns nowIso cfg) path).1.config =
      st.config ∧
    ((trainSaveModel store path model tname fns nowIso cfg).find?
        (fun p => p.1 == path)).map (fun p => p.2.config) = some cfg ∧
    (∀ x : List ℚ,
      ((trainLoadModel st (trainSaveModel store path model tname fns nowIso cfg) path).2.map
        (fun r => r.model.predictProb x)) = Except.ok (model.predictProb x)) ∧
    predLoadModel (predSaveModel store2 path2 (some m2)).1 path2 = some m2 := by
  refine ⟨?_, ?_, ?_, ?_, ?_⟩
  · simp [trainSaveModel, trainLoadModel, List.find?]
  · simp [trainSaveModel, trainLoadModel, List.find?]
  · simp [trainSaveModel, List.find?]
  · intro x
    simp [trainSaveModel, trainLoadModel, List.find?, Except.map]
  · simp [predSaveModel, predLoadModel, List.find?]

/-- C5 (counterexample): an artifact saved with random_state 7 in its
configuration is loaded by a trainer configured with the default 42;
after the load the trainer's configuration still reads 42 — the
persisted configuration field is not restored. -/
theorem persistence_counterexample :
    ((trainSaveModel [] "models/fraud_model.pkl" mlW "RandomForestClassifier"
        ["transaction_amount"] "2026-01-01T00:00:00" cfgSaved).find?
      (fun p => p.1 == "models/fraud_model.pkl")).map
        (fun p => p.2.config.random_state) = some 7 ∧
    (trainLoadModel trainerStart
      (trainSaveModel [] "models/fraud_model.pkl" mlW "RandomForestClassifier"
        ["transaction_amount"] "2026-01-01T00:00:00" cfgSaved)
      "models/fraud_model.pkl").1.config.random_state = 42 ∧
    (trainLoadModel trainerStart
      (trainSaveModel [] "models/fraud_model.pkl" mlW "RandomForestClassifier"
        ["transaction_amount"] "2026-01-01T00:00:00" cfgSaved)
      "models/fraud_model.pkl").1.config.random_state ≠ cfgSaved.random_state := by
  exact ⟨rfl, rfl, by decide⟩

end Fraud
namespace Fraud

lemma c1_scenario (ext : Ext) (st : PredictorState) (now ts : ℚ)
    (hml : st.model_loaded = false) (hth : st.threshold = 0.8)
    (hhour : (ext.toDT ts).hour = 2) :
    (processTxn st ext now [] 0 (c1Txn ts)).explanation.method = some "rule_based" ∧
    (processTxn st ext now [] 0 (c1Txn ts)).explanation.risk_factors =
      ["NIGHT_TRANSACTION", "SHORT_SESSION", "NEW_USER_HIGH_AMOUNT"] ∧
    (processTxn st ext now [] 0 (c1Txn ts)).explanation.risk_score = some 65 ∧
    (processTxn st ext now [] 0 (c1Txn ts)).prediction.probability = 0.65 ∧
    (processTxn st ext now [] 0 (c1Txn ts)).prediction.is_fraud = false ∧
    (processTxn st ext now [] 0 (c1Txn ts)).risk_assessment.score = 92.95 ∧
    (processTxn st ext now [] 0 (c1Txn ts)).risk_assessment.level = "CRITICAL" ∧
    (processTxn st ext now [] 0 (c1Txn ts)).recommended_action.action = "BLOCK" := by
  have hhist : histFor [] (c1Txn ts) = [] := rfl
  set t := c1Txn ts with htdef
  set fs := extractFeatures ext now t [] with hfsdef
  -- lookups on the base dictionary
  have hbN : fget (baseFeatures ext now t []) "is_night_hours" = some (.num 1) := by
    simp [baseFeatures, extractTransactionFeatures, extractTemporalFeatures,
      extractTechnicalFeatures, fget, List.find?_append, List.find?, htdef, c1Txn, hhour]
  have hbS : fget (baseFeatures ext now t []) "short_session" = some (.num 1) := by
    simp [baseFeatures, extractTransactionFeatures, extractTemporalFeatures,
      extractTechnicalFeatures, fget, List.find?_append, List.find?, htdef, c1Txn]
    norm_num
  have hbF : fget (baseFeatures ext now t []) "is_first_transaction" = some (.bool true) := by
    simp [baseFeatures, extractTransactionFeatures, extractTemporalFeatures,
      extractTechnicalFeatures, fget, List.find?_append, List.find?, htdef, c1Txn]
  have hbA : fget (baseFeatures ext now t []) "transaction_amount" = some (.num 999.99) := by
    simp [baseFeatures, extractTransactionFeatures, extractTemporalFeatures,
      extractTechnicalFeatures, fget, List.find?_append, List.find?, htdef, c1Txn]
  -- lookups on the full feature dictionary
  have hfN : fget fs "is_night_hours" = some (.num 1) := by
    rw [hfsdef, fget_extract_eq_base ext now t [] _ (fget_derived_night _)]
    exact hbN
  have hfS : fget fs "short_session" = some (.num 1) := by
    rw [hfsdef, fget_extract_eq_base ext now t [] _ (fget_derived_short _)]
    exact hbS
  have hfF : fget fs "is_first_transaction" = some (.bool true) := by
    rw [hfsdef, fget_extract_eq_base ext now t [] _ (fget_derived_first _)]
    exact hbF
  have hfA : fget fs "transaction_amount" = some (.num 999.99) := by
    rw [hfsdef, fget_extract_eq_base ext now t [] _ (fget_derived_amount _)]
    exact hbA
  have hfR : fget fs "amount_deviation_ratio" = none := by
    rw [hfsdef, fget_extract_eq_base ext now t [] _ (fget_derived_ratio _)]
    exact fget_base_empty_ratio ext now t
  have hfV : fget fs "hourly_velocity" = none := by
    rw [hfsdef, fget_extract_eq_base ext now t [] _ (fget_derived_velocity _)]
    exact fget_base_empty_velocity ext now t
  have hfFr : fget fs "previous_failure_rate" = none := by
    rw [hfsdef, fget_extract_eq_base ext now t [] _ (fget_derived_failrate _)]
    exact fget_base_empty_failrate ext now t
  -- the six rules
  have hr1 : ruleAmountDev fs = (0, []) := by
    unfold ruleAmountDev fgetNum
    rw [hfR]
    norm_num
  have hr2 : ruleVelocity fs = (0, []) := by
    unfold ruleVelocity fgetNum
    rw [hfV]
    norm_num
  have hr3 : ruleNight fs = (15, ["NIGHT_TRANSACTION"]) := by
    unfold ruleNight fgetEqOne
    rw [hfN]
    simp [pyEqOne]
  have hr4 : ruleShortSession fs = (20, ["SHORT_SESSION"]) := by
    unfold ruleShortSession fgetEqOne
    rw [hfS]
    simp [pyEqOne]
  have hr5 : ruleNewUser fs = (30, ["NEW_USER_HIGH_AMOUNT"]) := by
    unfold ruleNewUser fgetNum
    rw [hfF, hfA]
    norm_num [truthyOpt, pyTruthy, pyNum]
  have hr6 : ruleFailures fs = (0, []) := by
    unfold ruleFailures fgetNum
    rw [hfFr]
    norm_num
  have hscore : ruleRiskScore fs = 65 := by
    unfold ruleRiskScore
    rw [hr1, hr2, hr3, hr4, hr5, hr6]
    norm_num
  have hfac : ruleFactors fs = ["NIGHT_TRANSACTION", "SHORT_SESSION", "NEW_USER_HIGH_AMOUNT"] := by
    unfold ruleFactors
    rw [hr1, hr2, hr3, hr4, hr5, hr6]
    rfl
  have hrbp : ruleBasedPrediction st.threshold fs =
      (false, 0.65,
       { method := some "rule_based",
         risk_factors := ["NIGHT_TRANSACTION", "SHORT_SESSION", "NEW_USER_HIGH_AMOUNT"],
         risk_score := some 65,
         rules_applied := some 3,
         confidence := 65 }) := by
    unfold ruleBasedPrediction
    rw [hscore, hfac, hth]
    norm_num
  have hpred : predict st fs = (false, 0.65,
       { method := some "rule_based",
         risk_factors := ["NIGHT_TRANSACTION", "SHORT_SESSION", "NEW_USER_HIGH_AMOUNT"],
         risk_score := some 65,
         rules_applied := some 3,
         confidence := 65 }) := by
    unfold predict
    rw [hml]
    simpa using hrbp
  have hcrs : calcRiskScore fs 0.65 = 92.95 := by
    unfold calcRiskScore fgetNum fgetEqOne
    rw [hfA, hfF]
    norm_num [pyNum, pyEqOne]
  have hlvl : determineRiskLevel 92.95 = "CRITICAL" := by
    unfold determineRiskLevel
    norm_num
  have hact : getRecommendedAction false "CRITICAL" = getRecommendedAction false "CRITICAL" := rfl
  refine ⟨?_, ?_, ?_, ?_, ?_, ?_, ?_, ?_⟩
  all_goals simp only [processTxn, hhist, ← hfsdef, hpred, hcrs, hlvl]
  all_goals rfl

end Fraud
namespace Fraud

/-- C1 (amended): with no model loaded and threshold 0.8, scoring the
transaction amount 999.99, first transaction, 45-second session at hour
2 with empty history takes the rule-based path and triggers exactly
NIGHT_TRANSACTION (+15), SHORT_SESSION (+20) and NEW_USER_HIGH_AMOUNT
(+30): rule risk_score 65, probability 0.65, is_fraud false; the
assessment risk score is 65 × 1.1 (amount over 500) × 1.3 (first
transaction) = 92.95, so the risk level is CRITICAL and the recommended
action BLOCK. -/
theorem rule_fallback_scenario (ext : Ext) (st : PredictorState) (now ts : ℚ)
    (hml : st.model_loaded = false) (hth : st.threshold = 0.8)
    (hhour : (ext.toDT ts).hour = 2) :
    (processTxn st ext now [] 0 (c1Txn ts)).explanation.method = some "rule_based" ∧
    (processTxn st ext now [] 0 (c1Txn ts)).explanation.risk_factors =
      ["NIGHT_TRANSACTION", "SHORT_SESSION", "NEW_USER_HIGH_AMOUNT"] ∧
    (processTxn st ext now [] 0 (c1Txn ts)).explanation.risk_score = some 65 ∧
    (processTxn st ext now [] 0 (c1Txn ts)).prediction.probability = 0.65 ∧
    (processTxn st ext now [] 0 (c1Txn ts)).prediction.is_fraud = false ∧
    (processTxn st ext now [] 0 (c1Txn ts)).risk_assessment.score = 92.95 ∧
    (processTxn st ext now [] 0 (c1Txn ts)).risk_assessment.level = "CRITICAL" ∧
    (processTxn st ext now [] 0 (c1Txn ts)).recommended_action.action = "BLOCK" :=
  c1_scenario ext st now ts hml hth hhour

/-- Witness for C1 at the concrete externals extW (hour 2) and the
no-model predictor with its default 0.8 threshold. -/
theorem rule_fallback_scenario_witness :
    stNoModel.model_loaded = false ∧ stNoModel.threshold = 0.8 ∧
    (extW.toDT 0).hour = 2 ∧
    ((processTxn stNoModel extW 0 [] 0 (c1Txn 0)).explanation.method = some "rule_based" ∧
     (processTxn stNoModel extW 0 [] 0 (c1Txn 0)).explanation.risk_factors =
       ["NIGHT_TRANSACTION", "SHORT_SESSION", "NEW_USER_HIGH_AMOUNT"] ∧
     (processTxn stNoModel extW 0 [] 0 (c1Txn 0)).explanation.risk_score = some 65 ∧
     (processTxn stNoModel extW 0 [] 0 (c1Txn 0)).prediction.probability = 0.65 ∧
     (processTxn stNoModel extW 0 [] 0 (c1Txn 0)).prediction.is_fraud = false ∧
     (processTxn stNoModel extW 0 [] 0 (c1Txn 0)).risk_assessment.score = 92.95 ∧
     (processTxn stNoModel extW 0 [] 0 (c1Txn 0)).risk_assessment.level = "CRITICAL" ∧
     (processTxn stNoModel extW 0 [] 0 (c1Txn 0)).recommended_action.action = "BLOCK") :=
  ⟨rfl, rfl, rfl, rule_fallback_scenario extW stNoModel 0 0 rfl rfl rfl⟩

/-- C1 (counterexample): at the claim's own input the rule path yields
risk factors NIGHT_TRANSACTION, SHORT_SESSION, NEW_USER_HIGH_AMOUNT with
rule risk_score 65 (NEW_USER_HIGH_AMOUNT adds 30, not 35), probability
0.65 (not 0.70), risk level CRITICAL (not HIGH) and recommended action
BLOCK (not REVIEW). -/
theorem rule_fallback_counterexample :
    (processTxn stNoModel extW 0 [] 0 (c1Txn 0)).explanation.risk_factors =
      ["NIGHT_TRANSACTION", "SHORT_SESSION", "NEW_USER_HIGH_AMOUNT"] ∧
    (processTxn stNoModel extW 0 [] 0 (c1Txn 0)).explanation.risk_score = some 65 ∧
    (processTxn stNoModel extW 0 [] 0 (c1Txn 0)).explanation.risk_score ≠ some 70 ∧
    (processTxn stNoModel extW 0 [] 0 (c1Txn 0)).prediction.probability = 0.65 ∧
    (processTxn stNoModel extW 0 [] 0 (c1Txn 0)).prediction.probability ≠ 0.7 ∧
    (processTxn stNoModel extW 0 [] 0 (c1Txn 0)).prediction.is_fraud = false ∧
    (processTxn stNoModel extW 0 [] 0 (c1Txn 0)).risk_assessment.level = "CRITICAL" ∧
    (processTxn stNoModel extW 0 [] 0 (c1Txn 0)).risk_assessment.level ≠ "HIGH" ∧
    (processTxn stNoModel extW 0 [] 0 (c1Txn 0)).recommended_action.action = "BLOCK" ∧
    (processTxn stNoModel extW 0 [] 0 (c1Txn 0)).recommended_action.action ≠ "REVIEW" := by
  obtain ⟨h1, h2, h3, h4, h5, h6, h7, h8⟩ := c1_scenario extW stNoModel 0 0 rfl rfl rfl
  refine ⟨h2, h3, ?_, h4, ?_, h5, h7, ?_, h8, ?_⟩
  · rw [h3]
    simp
  · rw [h4]
    norm_num
  · rw [h7]
    decide
  · rw [h8]
    decide

end Fraud
